import Mathlib

/-!
Verification of the bus-timing CPU core of the `edge` Game Boy emulator
(`src/gb/lr35902/cpu_funcs.hpp`, `src/gb/lr35902/cpu_table.hpp`).

The C++ core is a deterministic state machine: a half-cycle clock divider,
read/write bus-transaction protocols that drive the external pins, a
fetch/execute driver with prefetch overlap, and a 256-entry opcode dispatch
table.  Machine integers are modelled as `Nat` with explicit `% 2^w` where
the C code can wrap (`pc++` on `uint16_t`, `ck_half_cycle++` on `uint8_t`).
Pointer-written output (`uint8_t* dest` of `cpu_handle_read`) is modelled by
threading the destination byte through the function and returning it.
-/

namespace Edge

/-- The external pin bundle (`pins_t`): address lines (16 bits, bit 15 = A15),
data lines (8 bits), the RD/WR strobes, chip select and the phi clock phase. -/
structure pins_t where
  a : Nat
  d : Nat
  rd : Bool
  wr : Bool
  cs : Bool
  phi : Bool
deriving DecidableEq

/-- Top-level state of the CPU driver (`ST_FETCH`, `ST_EXECUTE`, `ST_TEST`). -/
inductive cpu_state_t where
  | ST_FETCH
  | ST_EXECUTE
  | ST_TEST
deriving DecidableEq

/-- Modelled from the spec: the two-valued completion status returned by an
instruction handler (`instruction_state_t`, declared in `cpu_instructions.hpp`
which is not under `src/`): either more cycles remain or this was the final
cycle of the instruction. -/
inductive instruction_state_t where
  | IS_MORE_CYCLES
  | IS_LAST_CYCLE
deriving DecidableEq

/-- The CPU core state (`cpu_t`): program counter, instruction/address/data
latches, half-cycle counter, the two in-flight flags, the driver state, and
the (referenced) pin set, inlined here as a field. -/
structure cpu_t where
  pins : pins_t
  pc : Nat
  instruction_latch : Nat
  a_latch : Nat
  d_latch : Nat
  ck_half_cycle : Nat
  read_ongoing : Bool
  write_ongoing : Bool
  state : cpu_state_t
deriving DecidableEq

/-- Modelled from the spec: the `RANGE(x, lo, hi)` macro of `gb/macros.hpp`
(not under `src/`), an inclusive interval membership test, matching the
region comments in `cpu_funcs.hpp` (`0000-7fff`, `a000-fdff`, `fe00-ffff`)
and the spec's closed intervals. -/
def RANGE (x lo hi : Nat) : Prop := lo ≤ x ∧ x ≤ hi

instance (x lo hi : Nat) : Decidable (RANGE x lo hi) :=
  inferInstanceAs (Decidable (lo ≤ x ∧ x ≤ hi))

/-- Reset/initialization (`cpu_init`): `memset` zeroes every core field, the
pin set keeps its prior contents except that RD, WR and CS are set idle-high
and the address pins are set to `0x8000` (A15 high); the state is `ST_FETCH`. -/
def cpu_init (p : pins_t) : cpu_t :=
  { pins := { p with rd := true, wr := true, a := 0x8000, cs := true }
    pc := 0
    instruction_latch := 0
    a_latch := 0
    d_latch := 0
    ck_half_cycle := 0
    read_ongoing := false
    write_ongoing := false
    state := cpu_state_t.ST_FETCH }

/-- Begin a read transaction (`cpu_init_read`): set the in-flight flag and
latch the address. -/
def cpu_init_read (cpu : cpu_t) (addr : Nat) : cpu_t :=
  { cpu with read_ongoing := true, a_latch := addr }

/-- Begin a write transaction (`cpu_init_write`): set the in-flight flag and
latch address and data. -/
def cpu_init_write (cpu : cpu_t) (addr : Nat) (data : Nat) : cpu_t :=
  { cpu with write_ongoing := true, a_latch := addr, d_latch := data }

/-- Clock divider (`cpu_update_clocks`): `ck_half_cycle++` wraps as `uint8_t`,
then `%= 8`; `phi` is recomputed as the logical negation of bit 2 of the new
half-cycle value. -/
def cpu_update_clocks (cpu : cpu_t) : cpu_t :=
  let h := (cpu.ck_half_cycle + 1) % 256 % 8
  { cpu with ck_half_cycle := h,
             pins := { cpu.pins with phi := decide ((h >>> 2) &&& 1 = 0) } }

/-- One half-cycle step of the write protocol (`cpu_handle_write`).  Returns
the updated state and the C return value (`true` while the transaction
continues, `false` at half-cycle 7). -/
def cpu_handle_write (cpu : cpu_t) : cpu_t × Bool :=
  match cpu.ck_half_cycle with
  | 0 =>
    ({ cpu with pins := { cpu.pins with wr := true, rd := false, a := cpu.pins.a ||| 0x8000, cs := true } }, true)
  | 1 =>
    let c1 := if RANGE cpu.a_latch 0x0000 0x7fff ∨ RANGE cpu.a_latch 0xa000 0xfdff
              then { cpu with pins := { cpu.pins with rd := true } }
              else cpu
    ({ c1 with pins := { c1.pins with a := (c1.pins.a &&& 0x8000) ||| (c1.a_latch &&& 0x7fff) } }, true)
  | 2 =>
    (if RANGE cpu.a_latch 0x0000 0x7fff then
       { cpu with pins := { cpu.pins with a := cpu.pins.a &&& 0x7fff } }
     else if RANGE cpu.a_latch 0xa000 0xfdff then
       { cpu with pins := { cpu.pins with cs := false } }
     else cpu, true)
  | 3 =>
    (if RANGE cpu.a_latch 0x0000 0x7fff ∨ RANGE cpu.a_latch 0xa000 0xfdff then
       { cpu with pins := { cpu.pins with wr := false, d := cpu.d_latch } }
     else cpu, true)
  | 6 => ({ cpu with pins := { cpu.pins with wr := true } }, true)
  | 7 => ({ cpu with write_ongoing := false }, false)
  | _ => (cpu, true)

/-- One half-cycle step of the read protocol (`cpu_handle_read`).  The C
function writes the sampled byte through `uint8_t* dest` at half-cycle 6;
here the destination byte is threaded through and returned. -/
def cpu_handle_read (cpu : cpu_t) (dest : Nat) : cpu_t × Nat × Bool :=
  match cpu.ck_half_cycle with
  | 0 =>
    ({ cpu with pins := { cpu.pins with wr := true, rd := false, a := cpu.pins.a ||| 0x8000, cs := true } }, dest, true)
  | 1 =>
    ({ cpu with pins := { cpu.pins with a := (cpu.pins.a &&& 0x8000) ||| (cpu.a_latch &&& 0x7fff) } }, dest, true)
  | 2 =>
    (if RANGE cpu.a_latch 0x0000 0x7fff then
       { cpu with pins := { cpu.pins with a := cpu.pins.a &&& 0x7fff } }
     else if RANGE cpu.a_latch 0xa000 0xfdff then
       { cpu with pins := { cpu.pins with cs := false } }
     else cpu, dest, true)
  | 6 => (cpu, cpu.pins.d, true)
  | 7 => ({ cpu with read_ongoing := false }, dest, false)
  | _ => (cpu, dest, true)

/-- The opcode-fetch body shared verbatim by the `ST_FETCH` branch and the
prefetch-overlap path of the `ST_EXECUTE` branch of `cpu_clock`: if no read
is in flight, begin one at `pc` (post-incremented modulo 2^16); step the
in-flight read with `instruction_latch` as destination; when it completes,
set the state to `ST_EXECUTE`. -/
def cpu_do_fetch (cpu : cpu_t) : cpu_t :=
  let c1 := if cpu.read_ongoing then cpu
            else cpu_init_read { cpu with pc := (cpu.pc + 1) % 65536 } cpu.pc
  let r := cpu_handle_read c1 c1.instruction_latch
  let c2 := { r.1 with instruction_latch := r.2.1 }
  if r.2.2 then c2 else { c2 with state := cpu_state_t.ST_EXECUTE }

/-- The tick entry point (`cpu_clock`), parameterized by the instruction
dispatch table (the handlers live in `cpu_instructions.hpp`, outside `src/`):
dispatch on the driver state, then advance the clock divider unconditionally. -/
def cpu_clock (tbl : Nat → cpu_t → cpu_t × instruction_state_t) (cpu : cpu_t) : cpu_t :=
  cpu_update_clocks
    (match cpu.state with
     | cpu_state_t.ST_FETCH => cpu_do_fetch cpu
     | cpu_state_t.ST_EXECUTE =>
       let r := tbl cpu.instruction_latch cpu
       if r.2 = instruction_state_t.IS_LAST_CYCLE then cpu_do_fetch r.1 else r.1
     | cpu_state_t.ST_TEST => cpu)

/-- Iterated ticks: `cpu_ticks tbl c n` is the state after `n` calls to
`cpu_clock` starting from `c`. -/
def cpu_ticks (tbl : Nat → cpu_t → cpu_t × instruction_state_t) (cpu : cpu_t) : Nat → cpu_t
  | 0 => cpu
  | n + 1 => cpu_clock tbl (cpu_ticks tbl cpu n)

/-- A standalone driver for one read transaction: apply `cpu_handle_read`
(threading the destination byte) and then advance the clock divider, `n`
times. -/
def readRun (cpu : cpu_t) (dest : Nat) : Nat → cpu_t × Nat
  | 0 => (cpu, dest)
  | n + 1 =>
    let s := readRun cpu dest n
    let r := cpu_handle_read s.1 s.2
    (cpu_update_clocks r.1, r.2.1)

/-- A standalone driver for one write transaction: apply `cpu_handle_write`
and then advance the clock divider, `n` times. -/
def writeRun (cpu : cpu_t) : Nat → cpu_t
  | 0 => cpu
  | n + 1 => cpu_update_clocks (cpu_handle_write (writeRun cpu n)).1

/-- The identifiers of the instruction handlers named by `instruction_table`
in `cpu_table.hpp` (their bodies live in `cpu_instructions.hpp`, outside
`src/`; the table itself only references them by name). -/
inductive opcode_handler where
  | nop | ld_rr_nn | ld_r_n | ld_nn_sp | ld_a_bc | ld_a_de
  | ld_hli_a | ld_a_hli | ld_hld_a | ld_a_hld | ld_hl_n
  | ld_r_r | ld_r_hl | ld_hl_r
  | pop_bc | jp_nn | push_bc | pop_de | push_de
  | ldh_n_a | pop_hl | ldh_c_a | push_hl | ld_nn_a
  | ldh_a_n | pop_af | ldh_a_c | push_af | ld_sp_hl | ld_a_nn
deriving DecidableEq

open opcode_handler in
/-- The instruction dispatch table of `cpu_table.hpp`, transcribed entry by
entry in source order (row `0X` first, sixteen entries per row). -/
def instruction_table : List opcode_handler := [
  nop,      ld_rr_nn, nop,      nop,      nop,      nop,      ld_r_n,   nop,
  ld_nn_sp, nop,      ld_a_bc,  nop,      nop,      nop,      ld_r_n,   nop,
  nop,      ld_rr_nn, nop,      nop,      nop,      nop,      ld_r_n,   nop,
  nop,      nop,      ld_a_de,  nop,      nop,      nop,      ld_r_n,   nop,
  nop,      ld_rr_nn, ld_hli_a, nop,      nop,      nop,      ld_r_n,   nop,
  nop,      nop,      ld_a_hli, nop,      nop,      nop,      ld_r_n,   nop,
  nop,      ld_rr_nn, ld_hld_a, nop,      nop,      nop,      ld_hl_n,  nop,
  nop,      nop,      ld_a_hld, nop,      nop,      nop,      ld_r_n,   nop,
  ld_r_r,   ld_r_r,   ld_r_r,   ld_r_r,   ld_r_r,   ld_r_r,   ld_r_hl,  ld_r_r,
  ld_r_r,   ld_r_r,   ld_r_r,   ld_r_r,   ld_r_r,   ld_r_r,   ld_r_hl,  ld_r_r,
  ld_r_r,   ld_r_r,   ld_r_r,   ld_r_r,   ld_r_r,   ld_r_r,   ld_r_hl,  ld_r_r,
  ld_r_r,   ld_r_r,   ld_r_r,   ld_r_r,   ld_r_r,   ld_r_r,   ld_r_hl,  ld_r_r,
  ld_r_r,   ld_r_r,   ld_r_r,   ld_r_r,   ld_r_r,   ld_r_r,   ld_r_hl,  ld_r_r,
  ld_r_r,   ld_r_r,   ld_r_r,   ld_r_r,   ld_r_r,   ld_r_r,   ld_r_hl,  ld_r_r,
  ld_hl_r,  ld_hl_r,  ld_hl_r,  ld_hl_r,  ld_hl_r,  ld_hl_r,  nop,      ld_hl_r,
  ld_r_r,   ld_r_r,   ld_r_r,   ld_r_r,   ld_r_r,   ld_r_r,   ld_r_hl,  ld_r_r,
  nop,      nop,      nop,      nop,      nop,      nop,      nop,      nop,
  nop,      nop,      nop,      nop,      nop,      nop,      nop,      nop,
  nop,      nop,      nop,      nop,      nop,      nop,      nop,      nop,
  nop,      nop,      nop,      nop,      nop,      nop,      nop,      nop,
  nop,      nop,      nop,      nop,      nop,      nop,      nop,      nop,
  nop,      nop,      nop,      nop,      nop,      nop,      nop,      nop,
  nop,      nop,      nop,      nop,      nop,      nop,      nop,      nop,
  nop,      nop,      nop,      nop,      nop,      nop,      nop,      nop,
  nop,      pop_bc,   nop,      jp_nn,    nop,      push_bc,  nop,      nop,
  nop,      nop,      nop,      nop,      nop,      nop,      nop,      nop,
  nop,      pop_de,   nop,      nop,      nop,      push_de,  nop,      nop,
  nop,      nop,      nop,      nop,      nop,      nop,      nop,      nop,
  ldh_n_a,  pop_hl,   ldh_c_a,  nop,      nop,      push_hl,  nop,      nop,
  nop,      nop,      ld_nn_a,  nop,      nop,      nop,      nop,      nop,
  ldh_a_n,  pop_af,   ldh_a_c,  nop,      nop,      push_af,  nop,      nop,
  nop,      ld_sp_hl, ld_a_nn,  nop,      nop,      nop,      nop,      nop]

/-- C7: immediately after reset/initialization, every CPU core field is zero
(`pc`, `instruction_latch`, `a_latch`, `d_latch`, `ck_half_cycle`, both
in-flight flags) except that the top-level state is `ST_FETCH`, and the pin
set is in the idle bus state: RD and WR inactive (true), CS idle-high (true)
and A15 (bit 15 of the address pins) idle-high. -/
theorem C7_reset_idle_state (p : pins_t) :
    (cpu_init p).pc = 0 ∧ (cpu_init p).instruction_latch = 0 ∧
    (cpu_init p).a_latch = 0 ∧ (cpu_init p).d_latch = 0 ∧
    (cpu_init p).ck_half_cycle = 0 ∧ (cpu_init p).read_ongoing = false ∧
    (cpu_init p).write_ongoing = false ∧
    (cpu_init p).state = cpu_state_t.ST_FETCH ∧
    (cpu_init p).pins.rd = true ∧ (cpu_init p).pins.wr = true ∧
    (cpu_init p).pins.cs = true ∧ (cpu_init p).pins.a.testBit 15 = true := by
  refine ⟨rfl, rfl, rfl, rfl, rfl, rfl, rfl, rfl, rfl, rfl, rfl, ?_⟩
  show (0x8000 : Nat).testBit 15 = true
  decide

set_option maxRecDepth 8192 in
/-- C9: the instruction dispatch table has exactly 256 entries and indexing
it with any opcode byte 0x00–0xFF yields a defined handler. -/
theorem C9_dispatch_table_total :
    instruction_table.length = 256 ∧
    ∀ i : Fin 256, (instruction_table.get? i.val).isSome = true := by
  constructor
  · rfl
  · decide

/-- C10: `cpu_init_read` modifies only the in-flight read flag and the
address latch, and `cpu_init_write` modifies only the in-flight write flag,
the address latch and the data latch; neither touches any pin or any other
core field. -/
theorem C10_begin_frame (c : cpu_t) (a b : Nat) :
    (cpu_init_read c a).read_ongoing = true ∧ (cpu_init_read c a).a_latch = a ∧
    (cpu_init_read c a).pins = c.pins ∧ (cpu_init_read c a).pc = c.pc ∧
    (cpu_init_read c a).instruction_latch = c.instruction_latch ∧
    (cpu_init_read c a).d_latch = c.d_latch ∧
    (cpu_init_read c a).ck_half_cycle = c.ck_half_cycle ∧
    (cpu_init_read c a).write_ongoing = c.write_ongoing ∧
    (cpu_init_read c a).state = c.state ∧
    (cpu_init_write c a b).write_ongoing = true ∧
    (cpu_init_write c a b).a_latch = a ∧ (cpu_init_write c a b).d_latch = b ∧
    (cpu_init_write c a b).pins = c.pins ∧ (cpu_init_write c a b).pc = c.pc ∧
    (cpu_init_write c a b).instruction_latch = c.instruction_latch ∧
    (cpu_init_write c a b).ck_half_cycle = c.ck_half_cycle ∧
    (cpu_init_write c a b).read_ongoing = c.read_ongoing ∧
    (cpu_init_write c a b).state = c.state :=
  ⟨rfl, rfl, rfl, rfl, rfl, rfl, rfl, rfl, rfl, rfl, rfl, rfl, rfl, rfl, rfl,
   rfl, rfl, rfl⟩

/-- C1 (as stated) is false: in a read transaction to a ROM address at
half-cycle 1 with the read strobe active-low, `cpu_handle_read` leaves the
read strobe active (false); it is not deasserted back to inactive (true). -/
theorem C1_counterexample :
    ¬ ((cpu_handle_read { pins := { a := 0, d := 0, rd := false, wr := true, cs := true, phi := true }, pc := 0, instruction_latch := 0, a_latch := 0, d_latch := 0, ck_half_cycle := 1, read_ongoing := true, write_ongoing := false, state := cpu_state_t.ST_FETCH } 0).1.pins.rd = true) := by
  decide

/-- C1 (amended): at half-cycle 1 of a transaction to the ROM region
`[0x0000, 0x7FFF]` or the RAM region `[0xA000, 0xFDFF]`, the write handler
deasserts the read strobe back to inactive (true) and changes no other
strobe, while the read handler makes no strobe change; for the HRAM/IO
region `[0xFE00, 0xFFFF]` neither handler changes a strobe at half-cycle 1. -/
theorem C1_halfcycle1_strobes (c : cpu_t) (d : Nat) (h : c.ck_half_cycle = 1) :
    ((RANGE c.a_latch 0x0000 0x7fff ∨ RANGE c.a_latch 0xa000 0xfdff) →
      (cpu_handle_write c).1.pins.rd = true ∧
      (cpu_handle_write c).1.pins.wr = c.pins.wr ∧
      (cpu_handle_read c d).1.pins.rd = c.pins.rd ∧
      (cpu_handle_read c d).1.pins.wr = c.pins.wr) ∧
    (RANGE c.a_latch 0xfe00 0xffff →
      (cpu_handle_write c).1.pins.rd = c.pins.rd ∧
      (cpu_handle_write c).1.pins.wr = c.pins.wr ∧
      (cpu_handle_read c d).1.pins.rd = c.pins.rd ∧
      (cpu_handle_read c d).1.pins.wr = c.pins.wr) := by
  constructor
  · intro hr
    simp [cpu_handle_write, cpu_handle_read, h, hr]
  · intro hr
    have hn : ¬ (RANGE c.a_latch 0x0000 0x7fff ∨ RANGE c.a_latch 0xa000 0xfdff) := by
      simp only [RANGE] at hr ⊢
      omega
    simp [cpu_handle_write, cpu_handle_read, h, hn]

/-- C1 (witness): at a concrete half-cycle-1 state with a ROM target the
amended theorem evaluates: the write handler sets the read strobe to true
and the read handler leaves it at false. -/
theorem C1_halfcycle1_strobes_witness :
    (cpu_handle_write { pins := { a := 0, d := 0, rd := false, wr := true, cs := true, phi := true }, pc := 0, instruction_latch := 0, a_latch := 0x1234, d_latch := 0, ck_half_cycle := 1, read_ongoing := false, write_ongoing := true, state := cpu_state_t.ST_FETCH }).1.pins.rd = true :=
  ((C1_halfcycle1_strobes { pins := { a := 0, d := 0, rd := false, wr := true, cs := true, phi := true }, pc := 0, instruction_latch := 0, a_latch := 0x1234, d_latch := 0, ck_half_cycle := 1, read_ongoing := false, write_ongoing := true, state := cpu_state_t.ST_FETCH } 0 rfl).1 (Or.inl (by decide))).1

/-- C2 (as stated) is false: in a write transaction to the HRAM/IO address
0xFF00 at half-cycle 3, `cpu_handle_write` does not pull the write strobe
active-low and does not place `d_latch` onto the data pins. -/
theorem C2_counterexample :
    ¬ ((cpu_handle_write { pins := { a := 0x8000, d := 0, rd := false, wr := true, cs := true, phi := true }, pc := 0, instruction_latch := 0, a_latch := 0xff00, d_latch := 0x42, ck_half_cycle := 3, read_ongoing := false, write_ongoing := true, state := cpu_state_t.ST_FETCH }).1.pins.wr = false) := by
  decide

/-- C2 (amended): at half-cycle 3 of a write transaction whose target lies
in the ROM region `[0x0000, 0x7FFF]` or the RAM region `[0xA000, 0xFDFF]`,
the write strobe is pulled active-low (false) and `d_latch` is placed onto
the data pins; for the HRAM/IO region `[0xFE00, 0xFFFF]` the half-cycle-3
step changes nothing at all. -/
theorem C2_halfcycle3_commit (c : cpu_t) (h : c.ck_half_cycle = 3) :
    ((RANGE c.a_latch 0x0000 0x7fff ∨ RANGE c.a_latch 0xa000 0xfdff) →
      (cpu_handle_write c).1.pins.wr = false ∧
      (cpu_handle_write c).1.pins.d = c.d_latch) ∧
    (RANGE c.a_latch 0xfe00 0xffff → (cpu_handle_write c).1 = c) := by
  constructor
  · intro hr
    simp [cpu_handle_write, h, hr]
  · intro hr
    have hn : ¬ (RANGE c.a_latch 0x0000 0x7fff ∨ RANGE c.a_latch 0xa000 0xfdff) := by
      simp only [RANGE] at hr ⊢
      omega
    simp [cpu_handle_write, h, hn]

/-- C2 (witness): at a concrete half-cycle-3 state with a RAM target the
amended theorem evaluates: the write strobe goes low and the data pins take
the latched data. -/
theorem C2_halfcycle3_commit_witness :
    (cpu_handle_write { pins := { a := 0x8000, d := 0, rd := false, wr := true, cs := true, phi := true }, pc := 0, instruction_latch := 0, a_latch := 0xa000, d_latch := 0x42, ck_half_cycle := 3, read_ongoing := false, write_ongoing := true, state := cpu_state_t.ST_FETCH }).1.pins.wr = false :=
  ((C2_halfcycle3_commit { pins := { a := 0x8000, d := 0, rd := false, wr := true, cs := true, phi := true }, pc := 0, instruction_latch := 0, a_latch := 0xa000, d_latch := 0x42, ck_half_cycle := 3, read_ongoing := false, write_ongoing := true, state := cpu_state_t.ST_FETCH } rfl).1 (Or.inr (by decide))).1

/-- C5: `cpu_init_read`/`cpu_init_write` set their in-flight flag; a step of
`cpu_handle_read`/`cpu_handle_write` at any half-cycle other than 7 returns
true and preserves the in-flight flag, and the step at half-cycle 7 returns
false and clears the in-flight flag. -/
theorem C5_step_completion (c : cpu_t) (d a b : Nat) :
    (cpu_init_read c a).read_ongoing = true ∧
    (cpu_init_write c a b).write_ongoing = true ∧
    (c.ck_half_cycle ≠ 7 →
      (cpu_handle_read c d).2.2 = true ∧
      (cpu_handle_read c d).1.read_ongoing = c.read_ongoing ∧
      (cpu_handle_write c).2 = true ∧
      (cpu_handle_write c).1.write_ongoing = c.write_ongoing) ∧
    (c.ck_half_cycle = 7 →
      (cpu_handle_read c d).2.2 = false ∧
      (cpu_handle_read c d).1.read_ongoing = false ∧
      (cpu_handle_write c).2 = false ∧
      (cpu_handle_write c).1.write_ongoing = false) := by
  refine ⟨rfl, rfl, ?_, ?_⟩
  · intro h
    rcases hck : c.ck_half_cycle with _ | _ | _ | _ | _ | _ | _ | _ | n
    all_goals simp_all [cpu_handle_read, cpu_handle_write]
    all_goals try split
    all_goals try split
    all_goals simp_all
  · intro h
    simp [cpu_handle_read, cpu_handle_write, h]

/-- C5 (witness): at half-cycle 0 both steps report true; at half-cycle 7
both report false and clear the flags, evaluated at concrete states. -/
theorem C5_step_completion_witness :
    (cpu_handle_read { pins := { a := 0, d := 0, rd := true, wr := true, cs := true, phi := true }, pc := 0, instruction_latch := 0, a_latch := 0, d_latch := 0, ck_half_cycle := 0, read_ongoing := true, write_ongoing := false, state := cpu_state_t.ST_FETCH } 0).2.2 = true ∧
    (cpu_handle_read { pins := { a := 0, d := 0, rd := true, wr := true, cs := true, phi := true }, pc := 0, instruction_latch := 0, a_latch := 0, d_latch := 0, ck_half_cycle := 7, read_ongoing := true, write_ongoing := false, state := cpu_state_t.ST_FETCH } 0).1.read_ongoing = false :=
  ⟨((C5_step_completion { pins := { a := 0, d := 0, rd := true, wr := true, cs := true, phi := true }, pc := 0, instruction_latch := 0, a_latch := 0, d_latch := 0, ck_half_cycle := 0, read_ongoing := true, write_ongoing := false, state := cpu_state_t.ST_FETCH } 0 0 0).2.2.1 (by decide)).1,
   ((C5_step_completion { pins := { a := 0, d := 0, rd := true, wr := true, cs := true, phi := true }, pc := 0, instruction_latch := 0, a_latch := 0, d_latch := 0, ck_half_cycle := 7, read_ongoing := true, write_ongoing := false, state := cpu_state_t.ST_FETCH } 0 0 0).2.2.2 rfl).2.1⟩

/-- C8 (as stated) is false: in `ST_TEST` at half-cycle 3 with `phi` high,
one call to `cpu_clock` still runs the clock divider, which flips the phase
pin to low — a pin-set change the claim rules out. -/
theorem C8_counterexample :
    ¬ ((cpu_clock (fun _ c => (c, instruction_state_t.IS_MORE_CYCLES)) { pins := { a := 0, d := 0, rd := true, wr := true, cs := true, phi := true }, pc := 0, instruction_latch := 0, a_latch := 0, d_latch := 0, ck_half_cycle := 3, read_ongoing := false, write_ongoing := false, state := cpu_state_t.ST_TEST }).pins.phi = true) := by
  decide

/-- C8 (amended): in `ST_TEST` a tick performs only the unconditional
clock-divider update: no pin changes except that `phi` is recomputed, and no
core-field changes except that `ck_half_cycle` advances modulo 8; the
latches, program counter, in-flight flags and state are untouched. -/
theorem C8_test_mode_frame (tbl : Nat → cpu_t → cpu_t × instruction_state_t)
    (c : cpu_t) (h : c.state = cpu_state_t.ST_TEST) :
    cpu_clock tbl c = cpu_update_clocks c ∧
    (cpu_clock tbl c).pins.a = c.pins.a ∧
    (cpu_clock tbl c).pins.d = c.pins.d ∧
    (cpu_clock tbl c).pins.rd = c.pins.rd ∧
    (cpu_clock tbl c).pins.wr = c.pins.wr ∧
    (cpu_clock tbl c).pins.cs = c.pins.cs ∧
    (cpu_clock tbl c).pc = c.pc ∧
    (cpu_clock tbl c).instruction_latch = c.instruction_latch ∧
    (cpu_clock tbl c).a_latch = c.a_latch ∧
    (cpu_clock tbl c).d_latch = c.d_latch ∧
    (cpu_clock tbl c).read_ongoing = c.read_ongoing ∧
    (cpu_clock tbl c).write_ongoing = c.write_ongoing ∧
    (cpu_clock tbl c).state = c.state ∧
    (cpu_clock tbl c).ck_half_cycle = (c.ck_half_cycle + 1) % 256 % 8 := by
  simp [cpu_clock, h, cpu_update_clocks]

/-- C8 (witness): the amended frame theorem evaluated at a concrete
`ST_TEST` state. -/
theorem C8_test_mode_frame_witness :
    cpu_clock (fun _ c => (c, instruction_state_t.IS_MORE_CYCLES)) { pins := { a := 0, d := 0, rd := true, wr := true, cs := true, phi := true }, pc := 0, instruction_latch := 0, a_latch := 0, d_latch := 0, ck_half_cycle := 3, read_ongoing := false, write_ongoing := false, state := cpu_state_t.ST_TEST } = cpu_update_clocks { pins := { a := 0, d := 0, rd := true, wr := true, cs := true, phi := true }, pc := 0, instruction_latch := 0, a_latch := 0, d_latch := 0, ck_half_cycle := 3, read_ongoing := false, write_ongoing := false, state := cpu_state_t.ST_TEST } :=
  (C8_test_mode_frame (fun _ c => (c, instruction_state_t.IS_MORE_CYCLES)) { pins := { a := 0, d := 0, rd := true, wr := true, cs := true, phi := true }, pc := 0, instruction_latch := 0, a_latch := 0, d_latch := 0, ck_half_cycle := 3, read_ongoing := false, write_ongoing := false, state := cpu_state_t.ST_TEST } rfl).1

/-- Bit 15 of the constant `0x8000` is set. -/
theorem testBit_x8000_15 : Nat.testBit 0x8000 15 = true := by decide

/-- Bit 15 of the constant `0x7fff` is clear. -/
theorem testBit_x7fff_15 : Nat.testBit 0x7fff 15 = false := by decide

/-- C4: for a transaction driven from half-cycle 0, in either direction:
a ROM-region target has A15 pulled low by the step at half-cycle 2 (the
third step) while CS stays idle-high after every one of the eight steps;
a RAM-region target has CS pulled low by the step at half-cycle 2 while A15
stays idle-high after every step; an HRAM/IO-region target has both A15 and
CS still idle-high after the step at half-cycle 2. -/
theorem C4_region_exclusive (c : cpu_t) (d : Nat) (h0 : c.ck_half_cycle = 0) :
    (RANGE c.a_latch 0x0000 0x7fff →
      (readRun c d 3).1.pins.a.testBit 15 = false ∧
      (writeRun c 3).pins.a.testBit 15 = false ∧
      ∀ k, 1 ≤ k → k ≤ 8 →
        (readRun c d k).1.pins.cs = true ∧ (writeRun c k).pins.cs = true) ∧
    (RANGE c.a_latch 0xa000 0xfdff →
      (readRun c d 3).1.pins.cs = false ∧
      (writeRun c 3).pins.cs = false ∧
      ∀ k, 1 ≤ k → k ≤ 8 →
        (readRun c d k).1.pins.a.testBit 15 = true ∧
        (writeRun c k).pins.a.testBit 15 = true) ∧
    (RANGE c.a_latch 0xfe00 0xffff →
      (readRun c d 3).1.pins.a.testBit 15 = true ∧
      (readRun c d 3).1.pins.cs = true ∧
      (writeRun c 3).pins.a.testBit 15 = true ∧
      (writeRun c 3).pins.cs = true) := by
  refine ⟨?_, ?_, ?_⟩
  · intro hrom
    have hnram : ¬ RANGE c.a_latch 0xa000 0xfdff := by
      simp only [RANGE] at hrom ⊢
      omega
    refine ⟨?_, ?_, ?_⟩
    · simp [readRun, cpu_handle_read, cpu_update_clocks, h0, hrom, hnram,
            Nat.testBit_lor, Nat.testBit_land, testBit_x8000_15, testBit_x7fff_15]
    · simp [writeRun, cpu_handle_write, cpu_update_clocks, h0, hrom, hnram,
            Nat.testBit_lor, Nat.testBit_land, testBit_x8000_15, testBit_x7fff_15]
    · intro k hk1 hk8
      interval_cases k <;>
        simp [readRun, writeRun, cpu_handle_read, cpu_handle_write,
              cpu_update_clocks, h0, hrom, hnram]
  · intro hram
    have hnrom : ¬ RANGE c.a_latch 0x0000 0x7fff := by
      simp only [RANGE] at hram ⊢
      omega
    refine ⟨?_, ?_, ?_⟩
    · simp [readRun, cpu_handle_read, cpu_update_clocks, h0, hram, hnrom]
    · simp [writeRun, cpu_handle_write, cpu_update_clocks, h0, hram, hnrom]
    · intro k hk1 hk8
      interval_cases k <;>
        simp [readRun, writeRun, cpu_handle_read, cpu_handle_write,
              cpu_update_clocks, h0, hram, hnrom,
              Nat.testBit_lor, Nat.testBit_land, testBit_x8000_15, testBit_x7fff_15]
  · intro hio
    have hnrom : ¬ RANGE c.a_latch 0x0000 0x7fff := by
      simp only [RANGE] at hio ⊢
      omega
    have hnram : ¬ RANGE c.a_latch 0xa000 0xfdff := by
      simp only [RANGE] at hio ⊢
      omega
    refine ⟨?_, ?_, ?_, ?_⟩ <;>
      simp [readRun, writeRun, cpu_handle_read, cpu_handle_write,
            cpu_update_clocks, h0, hnrom, hnram,
            Nat.testBit_lor, Nat.testBit_land, testBit_x8000_15, testBit_x7fff_15]

/-- C4 (witness): a ROM-target read driven three steps from half-cycle 0
has A15 low, and a RAM-target read driven three steps has CS low, at
concrete states. -/
theorem C4_region_exclusive_witness :
    (readRun { pins := { a := 0, d := 0, rd := true, wr := true, cs := true, phi := true }, pc := 0, instruction_latch := 0, a_latch := 0x4000, d_latch := 0, ck_half_cycle := 0, read_ongoing := true, write_ongoing := false, state := cpu_state_t.ST_FETCH } 0 3).1.pins.a.testBit 15 = false ∧
    (readRun { pins := { a := 0, d := 0, rd := true, wr := true, cs := true, phi := true }, pc := 0, instruction_latch := 0, a_latch := 0xc000, d_latch := 0, ck_half_cycle := 0, read_ongoing := true, write_ongoing := false, state := cpu_state_t.ST_FETCH } 0 3).1.pins.cs = false :=
  ⟨((C4_region_exclusive { pins := { a := 0, d := 0, rd := true, wr := true, cs := true, phi := true }, pc := 0, instruction_latch := 0, a_latch := 0x4000, d_latch := 0, ck_half_cycle := 0, read_ongoing := true, write_ongoing := false, state := cpu_state_t.ST_FETCH } 0 rfl).1 (by decide)).1,
   (((C4_region_exclusive { pins := { a := 0, d := 0, rd := true, wr := true, cs := true, phi := true }, pc := 0, instruction_latch := 0, a_latch := 0xc000, d_latch := 0, ck_half_cycle := 0, read_ongoing := true, write_ongoing := false, state := cpu_state_t.ST_FETCH } 0 rfl).2.1 (by decide)).1)⟩

/-- A read step never touches the half-cycle counter. -/
theorem cpu_handle_read_ck (c : cpu_t) (d : Nat) :
    (cpu_handle_read c d).1.ck_half_cycle = c.ck_half_cycle := by
  rcases hck : c.ck_half_cycle with _ | _ | _ | _ | _ | _ | _ | _ | n
  all_goals simp_all [cpu_handle_read]
  all_goals try split
  all_goals try split
  all_goals simp_all

/-- The fetch body never touches the half-cycle counter. -/
theorem cpu_do_fetch_ck (c : cpu_t) :
    (cpu_do_fetch c).ck_half_cycle = c.ck_half_cycle := by
  simp only [cpu_do_fetch]
  split <;> split <;> simp [cpu_handle_read_ck, cpu_init_read]

/-- One tick advances the half-cycle counter and recomputes `phi` from the
new value, provided the instruction handlers leave the counter alone. -/
theorem cpu_clock_step (tbl : Nat → cpu_t → cpu_t × instruction_state_t)
    (hp : ∀ i c, ((tbl i c).1).ck_half_cycle = c.ck_half_cycle) (c : cpu_t) :
    (cpu_clock tbl c).ck_half_cycle = (c.ck_half_cycle + 1) % 256 % 8 ∧
    (cpu_clock tbl c).pins.phi =
      decide (((((c.ck_half_cycle + 1) % 256 % 8) >>> 2) &&& 1) = 0) := by
  cases hs : c.state
  all_goals simp [cpu_clock, cpu_update_clocks, hs, cpu_do_fetch_ck, hp]
  all_goals try split
  all_goals simp [cpu_do_fetch_ck, hp]

/-- C6: starting from reset, after `n` ticks the half-cycle counter equals
`n % 8`, and after every tick (`n ≥ 1`) the phase pin is low exactly when
the half-cycle counter is 4, 5, 6 or 7 — provided the dispatched instruction
handlers leave the half-cycle counter alone (the handlers live outside
`src/`; per the spec, only the clock divider touches the two clock fields). -/
theorem C6_half_cycle_wraparound (tbl : Nat → cpu_t → cpu_t × instruction_state_t)
    (p : pins_t) (n : Nat)
    (hp : ∀ i c, ((tbl i c).1).ck_half_cycle = c.ck_half_cycle) :
    (cpu_ticks tbl (cpu_init p) n).ck_half_cycle = n % 8 ∧
    (1 ≤ n →
      ((cpu_ticks tbl (cpu_init p) n).pins.phi = false ↔
        ((cpu_ticks tbl (cpu_init p) n).ck_half_cycle = 4 ∨
         (cpu_ticks tbl (cpu_init p) n).ck_half_cycle = 5 ∨
         (cpu_ticks tbl (cpu_init p) n).ck_half_cycle = 6 ∨
         (cpu_ticks tbl (cpu_init p) n).ck_half_cycle = 7))) := by
  induction n with
  | zero =>
    refine ⟨rfl, ?_⟩
    intro h
    exact absurd h (by norm_num)
  | succ n ih =>
    have hstep := cpu_clock_step tbl hp (cpu_ticks tbl (cpu_init p) n)
    constructor
    · show (cpu_clock tbl (cpu_ticks tbl (cpu_init p) n)).ck_half_cycle = (n + 1) % 8
      rw [hstep.1, ih.1]
      omega
    · intro _
      rw [show cpu_ticks tbl (cpu_init p) (n + 1) = cpu_clock tbl (cpu_ticks tbl (cpu_init p) n) from rfl,
          hstep.1, hstep.2, ih.1]
      have h8 : n % 8 = 0 ∨ n % 8 = 1 ∨ n % 8 = 2 ∨ n % 8 = 3 ∨ n % 8 = 4 ∨
          n % 8 = 5 ∨ n % 8 = 6 ∨ n % 8 = 7 := by omega
      rcases h8 with h | h | h | h | h | h | h | h <;> rw [h] <;> decide

/-- C6 (witness): with a handler table that leaves the counter alone, after
13 concrete ticks from reset the half-cycle counter is 5 and the phase pin
is high. -/
theorem C6_half_cycle_wraparound_witness :
    (cpu_ticks (fun _ c => (c, instruction_state_t.IS_MORE_CYCLES)) (cpu_init { a := 0, d := 0, rd := true, wr := true, cs := true, phi := true }) 13).ck_half_cycle = 13 % 8 :=
  (C6_half_cycle_wraparound (fun _ c => (c, instruction_state_t.IS_MORE_CYCLES)) { a := 0, d := 0, rd := true, wr := true, cs := true, phi := true } 13 (fun _ _ => rfl)).1

/-- C3: while in `ST_EXECUTE`, a tick applies the dispatched handler to the
CPU exactly once, yielding `(c1, st)`.  If `st` is `IS_MORE_CYCLES`, no
fetch is issued: the tick is just `c1` followed by the clock-divider update.
If `st` is `IS_LAST_CYCLE`, the same tick runs the opcode fetch: when no
read is in flight, a read is begun at `c1`'s program counter (which is
post-incremented modulo 2^16) and stepped; when one is in flight, it is just
stepped; either way the stepped read's sampled byte lands in
`instruction_latch`, and if the step reports completion the state is (re)set
to `ST_EXECUTE`. -/
theorem C3_execute_prefetch (tbl : Nat → cpu_t → cpu_t × instruction_state_t)
    (c c1 : cpu_t) (st : instruction_state_t)
    (hs : c.state = cpu_state_t.ST_EXECUTE)
    (ht : tbl c.instruction_latch c = (c1, st)) :
    (st = instruction_state_t.IS_MORE_CYCLES →
      cpu_clock tbl c = cpu_update_clocks c1) ∧
    (st = instruction_state_t.IS_LAST_CYCLE → c1.read_ongoing = false →
      cpu_clock tbl c =
        cpu_update_clocks
          ((fun r => if r.2.2 then { r.1 with instruction_latch := r.2.1 }
                     else { r.1 with instruction_latch := r.2.1, state := cpu_state_t.ST_EXECUTE })
            (cpu_handle_read
              (cpu_init_read { c1 with pc := (c1.pc + 1) % 65536 } c1.pc)
              c1.instruction_latch))) ∧
    (st = instruction_state_t.IS_LAST_CYCLE → c1.read_ongoing = true →
      cpu_clock tbl c =
        cpu_update_clocks
          ((fun r => if r.2.2 then { r.1 with instruction_latch := r.2.1 }
                     else { r.1 with instruction_latch := r.2.1, state := cpu_state_t.ST_EXECUTE })
            (cpu_handle_read c1 c1.instruction_latch))) := by
  refine ⟨?_, ?_, ?_⟩
  · intro hmore
    subst hmore
    simp [cpu_clock, hs, ht]
  · intro hlast hro
    subst hlast
    simp [cpu_clock, hs, ht, cpu_do_fetch, hro, cpu_init_read]
  · intro hlast hro
    subst hlast
    simp [cpu_clock, hs, ht, cpu_do_fetch, hro, cpu_init_read]

/-- C3 (witness): with a constant handler table reporting the final cycle,
one tick from a concrete `ST_EXECUTE` state with no read in flight equals
the clock-divider update of the freshly begun and stepped opcode fetch. -/
theorem C3_execute_prefetch_witness :
    cpu_clock (fun _ c => (c, instruction_state_t.IS_LAST_CYCLE)) { pins := { a := 0, d := 0, rd := true, wr := true, cs := true, phi := true }, pc := 0x0100, instruction_latch := 0, a_latch := 0, d_latch := 0, ck_half_cycle := 0, read_ongoing := false, write_ongoing := false, state := cpu_state_t.ST_EXECUTE } =
      cpu_update_clocks
        ((fun r => if r.2.2 then { r.1 with instruction_latch := r.2.1 }
                   else { r.1 with instruction_latch := r.2.1, state := cpu_state_t.ST_EXECUTE })
          (cpu_handle_read
            (cpu_init_read { pins := { a := 0, d := 0, rd := true, wr := true, cs := true, phi := true }, pc := (0x0100 + 1) % 65536, instruction_latch := 0, a_latch := 0, d_latch := 0, ck_half_cycle := 0, read_ongoing := false, write_ongoing := false, state := cpu_state_t.ST_EXECUTE } 0x0100)
            0)) :=
  (C3_execute_prefetch (fun _ c => (c, instruction_state_t.IS_LAST_CYCLE)) { pins := { a := 0, d := 0, rd := true, wr := true, cs := true, phi := true }, pc := 0x0100, instruction_latch := 0, a_latch := 0, d_latch := 0, ck_half_cycle := 0, read_ongoing := false, write_ongoing := false, state := cpu_state_t.ST_EXECUTE } { pins := { a := 0, d := 0, rd := true, wr := true, cs := true, phi := true }, pc := 0x0100, instruction_latch := 0, a_latch := 0, d_latch := 0, ck_half_cycle := 0, read_ongoing := false, write_ongoing := false, state := cpu_state_t.ST_EXECUTE } instruction_state_t.IS_LAST_CYCLE rfl rfl).2.1 rfl rfl

end Edge
